import Mathlib

/-!
Verification of the live voice-session core of the Mindful-Moments
application (`src/components/LiveSession.tsx`) and of the diary analysis
service (`src/unnamed/part_001`, `analyzeDiaryEntry`).

Times and durations are modelled as rationals (seconds).  The playback
scheduler state is the pair of mutable refs `nextStartTimeRef` and
`sourcesRef` from `LiveSession.tsx`; the `onmessage` handler is embedded
as a state-transition function, split at its `await decodeAudioData`
suspension point so that both the sequential behaviour and the
interleaving of an in-flight decode with an `interrupted` message can be
analysed.
-/

namespace MindfulMoments

/-- A scheduled output buffer (`AudioBufferSourceNode` as registered in
`sourcesRef`): its computed start time and its decoded duration, in
seconds. -/
structure Source where
  start : ℚ
  duration : ℚ
deriving Repr, DecidableEq

/-- The playback-scheduler state of `LiveSession.tsx`:
`nextStartTimeRef.current` (line 21, initial value `0`) and the set
`sourcesRef.current` of currently scheduled sources (line 22), kept here
as a list in scheduling order. -/
structure SchedulerState where
  nextStartTime : ℚ
  sources : List Source
deriving Repr, DecidableEq

/-- The initial scheduler state: `useRef<number>(0)` and an empty set. -/
def initialScheduler : SchedulerState :=
  { nextStartTime := 0, sources := [] }

/-- Lines 136-138 of `LiveSession.tsx`, the part of the audio branch of
`onmessage` that runs before the `await decodeAudioData`:
`nextStartTimeRef.current = Math.max(nextStartTimeRef.current, ctx.currentTime)`. -/
def audioPhaseA (s : SchedulerState) (currentTime : ℚ) : SchedulerState :=
  { s with nextStartTime := max s.nextStartTime currentTime }

/-- Lines 148-155 of `LiveSession.tsx`, the part of the audio branch that
runs after the decode resolves with a buffer of the given duration:
`source.start(nextStartTimeRef.current)`,
`nextStartTimeRef.current += audioBuffer.duration`,
`sourcesRef.current.add(source)`.  Returns the new state together with
the source that was scheduled. -/
def audioPhaseB (s : SchedulerState) (duration : ℚ) : SchedulerState × Source :=
  let source : Source := { start := s.nextStartTime, duration := duration }
  ({ nextStartTime := s.nextStartTime + duration,
     sources := s.sources ++ [source] }, source)

/-- Lines 124-132 of `LiveSession.tsx`, the `interrupted` branch of
`onmessage`: stop every source in `sourcesRef.current` (each stop call
individually guarded, see `tryStopNode` below), clear the set and reset
`nextStartTimeRef.current = 0`.  Returns the new state together with the
list of sources that were stopped. -/
def interruptStep (s : SchedulerState) : SchedulerState × List Source :=
  ({ nextStartTime := 0, sources := [] }, s.sources)

/-- One complete, uninterleaved processing of a successfully decoded audio
chunk: phase A immediately followed by phase B.  This is the scheduler's
`enqueue` operation of the specification. -/
def enqueue (s : SchedulerState) (currentTime duration : ℚ) : SchedulerState × Source :=
  audioPhaseB (audioPhaseA s currentTime) duration

/-- An inbound server message as seen by `onmessage`, for sequential runs
in which each chunk's decode completes before the next message is
processed: an `interrupted` signal, an audio chunk observed at the given
`ctx.currentTime` whose decode either succeeds with a duration or fails
(`decoded = none`), or a message carrying no audio. -/
inductive InboundEvent where
  | interrupted : InboundEvent
  | audioChunk : ℚ → Option ℚ → InboundEvent
  | other : InboundEvent
deriving Repr, DecidableEq

/-- The sequential `onmessage` handler (lines 123-162 of
`LiveSession.tsx`).  A decode failure is caught at line 158
(`console.error("Audio decode error", e)`), so the handler always
completes: the chunk is skipped and only the phase-A re-anchoring of
`nextStartTimeRef` remains in effect. -/
def onmessage (s : SchedulerState) (m : InboundEvent) : SchedulerState :=
  match m with
  | .interrupted => (interruptStep s).1
  | .audioChunk currentTime (some d) => (enqueue s currentTime d).1
  | .audioChunk currentTime none => audioPhaseA s currentTime
  | .other => s

/-- A sequential run of `onmessage` over a list of inbound messages. -/
def run (s : SchedulerState) (ms : List InboundEvent) : SchedulerState :=
  ms.foldl onmessage s

/-- An atomic scheduler action, at the granularity at which the async
`onmessage` handler can actually interleave: the pre-`await` part of an
audio chunk, the post-`await` part (decode resolved), a decode failure
(the catch at line 158), or an `interrupted` message (which contains no
`await` and runs atomically). -/
inductive SchedulerAct where
  | audioPre : ℚ → SchedulerAct
  | audioResume : ℚ → SchedulerAct
  | decodeFail : SchedulerAct
  | interrupt : SchedulerAct
deriving Repr, DecidableEq

/-- Effect of one atomic action on the scheduler state. -/
def actStep (s : SchedulerState) (a : SchedulerAct) : SchedulerState :=
  match a with
  | .audioPre currentTime => audioPhaseA s currentTime
  | .audioResume d => (audioPhaseB s d).1
  | .decodeFail => s
  | .interrupt => (interruptStep s).1

/-- A run over a trace of atomic actions; sequential message processing is
the special case in which each `audioPre` is immediately followed by its
`audioResume` or `decodeFail`. -/
def runAct (s : SchedulerState) (tr : List SchedulerAct) : SchedulerState :=
  tr.foldl actStep s

/-- Durations of decoded audio buffers are non-negative
(`AudioBuffer.duration` is `length / sampleRate ≥ 0`). -/
def actDurationNonneg : SchedulerAct → Prop
  | .audioResume d => 0 ≤ d
  | _ => True

/-- Scheduler invariant: every registered source ends no later than
`nextStartTime`, and the registered sources occupy pairwise
non-overlapping time ranges in scheduling order. -/
def GaplessInv (s : SchedulerState) : Prop :=
  (∀ b ∈ s.sources, b.start + b.duration ≤ s.nextStartTime) ∧
  s.sources.Pairwise fun a b => a.start + a.duration ≤ b.start

/-- A captured microphone frame (the contents of
`e.inputBuffer.getChannelData(0)` in one `onaudioprocess` callback),
identified by its capture index. -/
structure AudioFrame where
  id : ℕ
deriving Repr, DecidableEq

/-- The PCM blob built from a captured frame by `createPcmBlob`
(`src/services/audioUtils`, not under `src/`; its internals are irrelevant
here — only that each frame yields exactly one outbound packet). -/
structure OutboundPacket where
  media : AudioFrame
deriving Repr, DecidableEq

def createPcmBlob (f : AudioFrame) : OutboundPacket := ⟨f⟩

/-- The capture-side state of the `LiveSession` component:
`isMuted` is the current React state (line 14); `handlerMuted` is the
value of the `isMuted` binding that the `onaudioprocess` closure captured
when it was created inside `onopen` (line 101) — a plain `const` of the
render in which `connectToLive` ran, not a live reference; `pending` is
the FIFO microtask queue of `sessionPromise.then` callbacks registered by
the capture handler (lines 115-117) whose `sendRealtimeInput` has not yet
executed; `sent` is the sequence of packets actually handed to
`sendRealtimeInput`, in execution order; `micOpen` records whether the
microphone stream's tracks are still live. -/
structure LiveComponentState where
  isMuted : Bool
  handlerMuted : Bool
  pending : List OutboundPacket
  sent : List OutboundPacket
  micOpen : Bool
deriving Repr, DecidableEq

/-- Installation of `processor.onaudioprocess` inside `onopen` (lines
98-118): the closure captures the current value of `isMuted`. -/
def installHandler (st : LiveComponentState) : LiveComponentState :=
  { st with handlerMuted := st.isMuted }

/-- The component state right after mount and `onopen`: React state
`useState(false)` for `isMuted`, the capture handler installed (capturing
that initial `false`), no packets pending or sent, microphone open. -/
def sessionAfterOpen : LiveComponentState :=
  installHandler
    { isMuted := false, handlerMuted := false, pending := [], sent := [], micOpen := true }

/-- One invocation of the installed `onaudioprocess` callback (lines
101-118) on a captured frame: the guard at line 102 reads the closure's
captured `isMuted` value; otherwise `createPcmBlob(inputData)` is built
and `sessionPromise.then(session => session.sendRealtimeInput(...))`
registers the send on the microtask queue — the callback returns without
waiting for the send. -/
def onaudioprocess (st : LiveComponentState) (f : AudioFrame) : LiveComponentState :=
  if st.handlerMuted then st
  else { st with pending := st.pending ++ [createPcmBlob f] }

/-- `toggleMute` (lines 189-191): `setIsMuted(!isMuted)`.  It neither
reinstalls the capture handler (so `handlerMuted` is untouched) nor
touches the microphone stream. -/
def toggleMute (st : LiveComponentState) : LiveComponentState :=
  { st with isMuted := !st.isMuted }

/-- A sequence of capture callbacks, in capture order. -/
def processFrames (st : LiveComponentState) (fs : List AudioFrame) : LiveComponentState :=
  fs.foldl onaudioprocess st

/-- The event loop draining the microtask queue: the `then`-callbacks
registered on the (resolved) `sessionPromise` run in registration order,
each performing its `sendRealtimeInput`. -/
def drainMicrotasks (st : LiveComponentState) : LiveComponentState :=
  { st with pending := [], sent := st.sent ++ st.pending }

/-- An `AudioBufferSourceNode` as held in `sourcesRef`, viewed through its
`stop()` behaviour: `stopThrows` is true when `stop()` would throw (e.g.
an `InvalidStateError` because the node already ended). -/
structure SourceNode where
  id : ℕ
  stopThrows : Bool
deriving Repr, DecidableEq

/-- `source.stop()`: throws iff the node is in a state where stopping
fails. -/
def stopNode (n : SourceNode) : Except Unit Unit :=
  if n.stopThrows then .error () else .ok ()

/-- `try { source.stop(); } catch(e) {}` (line 50 and line 128): the catch
swallows any exception from the stop call. -/
def tryStopNode (n : SourceNode) : Except Unit Unit :=
  match stopNode n with
  | .ok _ => .ok ()
  | .error _ => .ok ()

/-- The `sourcesRef.current.forEach(...)` loop with each stop call
individually guarded; run in the exception monad, so an unhandled throw
would abort the whole loop with `.error`.  Returns the ids of the nodes
whose stop was attempted, in order. -/
def stopEachGuarded : List SourceNode → Except Unit (List ℕ)
  | [] => Except.ok []
  | n :: ns =>
    (tryStopNode n).bind fun _ =>
      (stopEachGuarded ns).bind fun rest => Except.ok (n.id :: rest)

/-- The interrupt path, lines 127-131: guarded stops over the scheduled
set, then `sourcesRef.current.clear()` and `nextStartTimeRef.current = 0`.
Yields the attempted stops, the cleared set and the reset anchor; `.error`
would mean the path aborted before completing. -/
def interruptPath (nodes : List SourceNode) :
    Except Unit (List ℕ × List SourceNode × ℚ) :=
  (stopEachGuarded nodes).bind fun attempted => Except.ok (attempted, [], 0)

/-- The output-context portion of the cleanup path, lines 48-55: guarded
stops over the scheduled set, `sourcesRef.current.clear()`, then
`outputAudioContextRef.current.close()`.  The final `Bool` records that
the `close()` call was reached. -/
def cleanupStopsPath (nodes : List SourceNode) :
    Except Unit (List ℕ × List SourceNode × Bool) :=
  (stopEachGuarded nodes).bind fun attempted => Except.ok (attempted, [], true)

/-- The nullable refs held by the `LiveSession` component, as presence
flags: `processorRef`, `sourceNodeRef`, `streamRef`,
`inputAudioContextRef`, `outputAudioContextRef`, the `sourcesRef` set,
`sessionRef` and `requestRef` (lines 19-29). -/
structure Refs where
  processor : Bool
  sourceNode : Bool
  stream : Bool
  inputCtx : Bool
  outputCtx : Bool
  sources : List SourceNode
  session : Bool
  request : Bool
deriving Repr, DecidableEq

/-- Counters of the externally visible release calls performed by
`cleanupAudio`, one per owned resource. -/
structure ReleaseLog where
  processorDisconnects : ℕ
  sourceNodeDisconnects : ℕ
  streamTrackStops : ℕ
  inputCtxCloses : ℕ
  outputCtxCloses : ℕ
  sourceStopAttempts : ℕ
  sessionCloses : ℕ
  animationFrameCancels : ℕ
deriving Repr, DecidableEq

structure CleanupState where
  refs : Refs
  log : ReleaseLog
deriving Repr, DecidableEq

/-- Lines 32-35: disconnect the processor node and null the ref. -/
def processorBlock (st : CleanupState) : CleanupState :=
  if st.refs.processor then
    { refs := { st.refs with processor := false },
      log := { st.log with processorDisconnects := st.log.processorDisconnects + 1 } }
  else st

/-- Lines 36-39: disconnect the media-stream source node and null the ref. -/
def sourceNodeBlock (st : CleanupState) : CleanupState :=
  if st.refs.sourceNode then
    { refs := { st.refs with sourceNode := false },
      log := { st.log with sourceNodeDisconnects := st.log.sourceNodeDisconnects + 1 } }
  else st

/-- Lines 40-43: stop every track of the microphone stream and null the
ref. -/
def streamBlock (st : CleanupState) : CleanupState :=
  if st.refs.stream then
    { refs := { st.refs with stream := false },
      log := { st.log with streamTrackStops := st.log.streamTrackStops + 1 } }
  else st

/-- Lines 44-47: close the input audio context and null the ref. -/
def inputCtxBlock (st : CleanupState) : CleanupState :=
  if st.refs.inputCtx then
    { refs := { st.refs with inputCtx := false },
      log := { st.log with inputCtxCloses := st.log.inputCtxCloses + 1 } }
  else st

/-- Lines 48-55: if the output context is held, stop (guarded) every
scheduled source, clear the set, close the context and null the ref. -/
def outputCtxBlock (st : CleanupState) : CleanupState :=
  if st.refs.outputCtx then
    { refs := { st.refs with outputCtx := false, sources := [] },
      log := { st.log with
        sourceStopAttempts := st.log.sourceStopAttempts + st.refs.sources.length,
        outputCtxCloses := st.log.outputCtxCloses + 1 } }
  else st

/-- Lines 56-59: close the network session (via the session promise) and
null the ref. -/
def sessionBlock (st : CleanupState) : CleanupState :=
  if st.refs.session then
    { refs := { st.refs with session := false },
      log := { st.log with sessionCloses := st.log.sessionCloses + 1 } }
  else st

/-- Lines 60-62: cancel the visualization animation frame.  Faithful to
the source, the ref is NOT nulled here, so this block is not idempotent —
but the animation-frame handle is not one of the owned device/session
resources. -/
def requestBlock (st : CleanupState) : CleanupState :=
  if st.refs.request then
    { st with log := { st.log with
        animationFrameCancels := st.log.animationFrameCancels + 1 } }
  else st

/-- `cleanupAudio` (lines 31-63): the six guarded release blocks in source
order, then the animation-frame cancellation. -/
def cleanupAudio (st : CleanupState) : CleanupState :=
  requestBlock (sessionBlock (outputCtxBlock (inputCtxBlock
    (streamBlock (sourceNodeBlock (processorBlock st))))))

/-- The AI provider selector (`src/unnamed/part_002`, `AIProvider`). -/
inductive AIProvider where
  | Gemini : AIProvider
  | DeepSeek : AIProvider
  | SiliconFlow : AIProvider
deriving Repr, DecidableEq, BEq

/-- `AIConfig` (`src/unnamed/part_002`). -/
structure AIConfig where
  provider : AIProvider
  apiKey : Option String
  model : Option String
deriving Repr

/-- The shape of a successfully parsed analysis result
(`Partial<DiaryEntry>` restricted to the fields the analysis produces). -/
structure Analysis where
  moodScore : ℚ
  tags : List String
  summary : String
  advice : String
deriving Repr, DecidableEq

/-- The fixed fallback returned by the catch block of `analyzeDiaryEntry`
(`src/unnamed/part_001`, lines 173-180). -/
def defaultAnalysis : Analysis :=
  { moodScore := 5
    tags := ["分析中断"]
    summary := "暂时无法分析内容。"
    advice := "记录本身就是一种疗愈。" }

/-- JavaScript truthiness of an optional string (`config?.apiKey` is
falsy when absent or empty). -/
def optStringTruthy : Option String → Bool
  | some s => s ≠ ""
  | none => false

/-- Outcomes of the external effects `analyzeDiaryEntry` performs: the
DeepSeek and SiliconFlow chat calls, the Gemini `generateContent` call
(whose response's `.text` may be absent), and `JSON.parse` on a returned
content string.  `.error` models a thrown exception. -/
structure ProviderOracle where
  deepSeekContent : Except Unit String
  siliconFlowContent : Except Unit String
  geminiResponseText : Except Unit (Option String)
  parseJson : String → Except Unit Analysis

/-- The body of `analyzeDiaryEntry` (`src/unnamed/part_001`, lines
85-172) up to its catch block: provider routing (third-party providers
are used only with a truthy key and no attachments), the provider call,
and JSON parsing; on the Gemini path a falsy `response.text` (absent or
empty) raises `No response text from Gemini`. -/
def analysisAttempt (text : String) (attachments : List String)
    (config : Option AIConfig) (o : ProviderOracle) : Except Unit Analysis :=
  let hasAttachments : Bool := attachments.length != 0
  let provider : AIProvider := (config.map (·.provider)).getD .Gemini
  let apiKey : Option String := config.bind (·.apiKey)
  let useDeepSeek : Bool :=
    (provider == .DeepSeek) && optStringTruthy apiKey && !hasAttachments
  let useSiliconFlow : Bool :=
    (provider == .SiliconFlow) && optStringTruthy apiKey && !hasAttachments
  if useDeepSeek then
    o.deepSeekContent.bind o.parseJson
  else if useSiliconFlow then
    o.siliconFlowContent.bind o.parseJson
  else
    match o.geminiResponseText with
    | .error _ => .error ()
    | .ok none => .error ()
    | .ok (some t) => if t = "" then .error () else o.parseJson t

/-- `analyzeDiaryEntry` (`src/unnamed/part_001`, lines 85-181): the
attempt wrapped in `try/catch`; every failure is logged and mapped to the
fixed `defaultAnalysis`. -/
def analyzeDiaryEntry (text : String) (attachments : List String)
    (config : Option AIConfig) (o : ProviderOracle) : Analysis :=
  match analysisAttempt text attachments config o with
  | .ok a => a
  | .error _ => defaultAnalysis

/-- A concrete all-failing oracle: every provider call throws and parsing
always fails. -/
def failingOracle : ProviderOracle :=
  { deepSeekContent := .error ()
    siliconFlowContent := .error ()
    geminiResponseText := .error ()
    parseJson := fun _ => .error () }

theorem gaplessInv_initial : GaplessInv initialScheduler := by
  constructor
  · intro b hb; simp [initialScheduler] at hb
  · simp [initialScheduler]

theorem gaplessInv_actStep {s : SchedulerState} {a : SchedulerAct}
    (ha : actDurationNonneg a) (hs : GaplessInv s) : GaplessInv (actStep s a) := by
  obtain ⟨h1, h2⟩ := hs
  cases a with
  | interrupt =>
    constructor
    · intro b hb; simp [actStep, interruptStep] at hb
    · simp [actStep, interruptStep]
  | decodeFail => exact ⟨h1, h2⟩
  | audioPre currentTime =>
    refine ⟨fun b hb => ?_, h2⟩
    exact le_trans (h1 b hb) (le_max_left _ _)
  | audioResume d =>
    have hd : 0 ≤ d := ha
    constructor
    · intro b hb
      simp only [actStep, audioPhaseB, List.mem_append, List.mem_singleton] at hb
      rcases hb with hb | hb
      · exact le_trans (h1 b hb) (le_add_of_nonneg_right hd)
      · subst hb; exact le_refl _
    · simp only [actStep, audioPhaseB]
      rw [List.pairwise_append]
      refine ⟨h2, List.pairwise_singleton _ _, ?_⟩
      intro a ha' b hb
      simp only [List.mem_singleton] at hb
      subst hb
      exact h1 a ha'

theorem gaplessInv_runAct {s : SchedulerState} {tr : List SchedulerAct}
    (htr : ∀ a ∈ tr, actDurationNonneg a) (hs : GaplessInv s) :
    GaplessInv (runAct s tr) := by
  induction tr generalizing s with
  | nil => exact hs
  | cons a tr ih =>
    exact ih (fun x hx => htr x (List.mem_cons_of_mem _ hx))
      (gaplessInv_actStep (htr a (List.mem_cons_self _ _)) hs)

/-- C1: for every sequence of successfully decoded chunks enqueued without
an intervening interruption, `enqueue` computes the start time as
`max(now, nextFreeTime)` and then advances `nextFreeTime` by the buffer's
duration; if the next chunk is enqueued at a time `now₂` no later than the
current `nextFreeTime`, its start time is exactly the previous start time
plus the previous duration (gapless: no gap and no overlap). -/
theorem C1_gapless_scheduling (s : SchedulerState) (now₁ d₁ now₂ d₂ : ℚ)
    (h : now₂ ≤ (enqueue s now₁ d₁).1.nextStartTime) :
    (enqueue s now₁ d₁).2.start = max now₁ s.nextStartTime ∧
    (enqueue s now₁ d₁).1.nextStartTime = (enqueue s now₁ d₁).2.start + d₁ ∧
    (enqueue (enqueue s now₁ d₁).1 now₂ d₂).2.start
      = (enqueue s now₁ d₁).2.start + d₁ := by
  refine ⟨by simp [enqueue, audioPhaseA, audioPhaseB, max_comm], rfl, ?_⟩
  have h' : now₂ ≤ max s.nextStartTime now₁ + d₁ := h
  simp only [enqueue, audioPhaseA, audioPhaseB]
  exact max_eq_left h'

/-- Witness for C1: three 20 ms buffers enqueued back-to-back starting from
the initial scheduler state at current time 10 start at 10, 10 + 1/50 and
10 + 2/50 (t, t+20ms, t+40ms). -/
theorem C1_gapless_scheduling_witness :
    (10 : ℚ) ≤ (enqueue initialScheduler 10 (1/50)).1.nextStartTime ∧
    (enqueue initialScheduler 10 (1/50)).2.start = 10 ∧
    (enqueue (enqueue initialScheduler 10 (1/50)).1 10 (1/50)).2.start = 10 + 1/50 ∧
    (enqueue (enqueue (enqueue initialScheduler 10 (1/50)).1 10 (1/50)).1
        10 (1/50)).2.start = 10 + 1/50 + 1/50 := by
  have h1 : (10 : ℚ) ≤ (enqueue initialScheduler 10 (1/50)).1.nextStartTime := by
    norm_num [enqueue, audioPhaseA, audioPhaseB, initialScheduler, max_def]
  have w1 := C1_gapless_scheduling initialScheduler 10 (1/50) 10 (1/50) h1
  have e1start : (enqueue initialScheduler 10 (1/50)).2.start = 10 := by
    rw [w1.1]; norm_num [initialScheduler, max_def]
  have h2 : (10 : ℚ) ≤
      (enqueue (enqueue initialScheduler 10 (1/50)).1 10 (1/50)).1.nextStartTime := by
    norm_num [enqueue, audioPhaseA, audioPhaseB, initialScheduler, max_def]
  have w2 := C1_gapless_scheduling (enqueue initialScheduler 10 (1/50)).1 10 (1/50) 10 (1/50) h2
  have e2start : (enqueue (enqueue initialScheduler 10 (1/50)).1 10 (1/50)).2.start
      = 10 + 1/50 := by
    rw [w1.2.2, e1start]
  have e3start : (enqueue (enqueue (enqueue initialScheduler 10 (1/50)).1 10 (1/50)).1
      10 (1/50)).2.start = 10 + 1/50 + 1/50 := by
    rw [w2.2.2, e2start]
  exact ⟨h1, e1start, e2start, e3start⟩

/-- C2: under every trace of enqueue and interrupt operations (at the
granularity at which the async handler can interleave, so sequential runs
are a special case), the buffers registered in `sourcesRef` — which are
exactly the buffers scheduled since the last interruption — never occupy
overlapping time ranges: the later buffer starts no earlier than the
earlier buffer's start plus its duration. -/
theorem C2_no_overlapping_schedule (tr : List SchedulerAct)
    (h : ∀ a ∈ tr, actDurationNonneg a) :
    ∀ (i j : Fin (runAct initialScheduler tr).sources.length), i < j →
      ((runAct initialScheduler tr).sources.get i).start
          + ((runAct initialScheduler tr).sources.get i).duration
        ≤ ((runAct initialScheduler tr).sources.get j).start := by
  have hinv := gaplessInv_runAct h gaplessInv_initial
  exact List.pairwise_iff_get.mp hinv.2

/-- Witness for C2: a concrete trace with two gapless chunks, an
interruption, and two more chunks (the second arriving late) leaves a
pairwise non-overlapping scheduled set. -/
theorem C2_no_overlapping_schedule_witness :
    (∀ a ∈ [SchedulerAct.audioPre 1, SchedulerAct.audioResume (1/2),
            SchedulerAct.audioPre 1, SchedulerAct.audioResume (1/2),
            SchedulerAct.interrupt,
            SchedulerAct.audioPre 2, SchedulerAct.audioResume 1,
            SchedulerAct.audioPre 4, SchedulerAct.audioResume 2],
        actDurationNonneg a) ∧
    ∀ (i j : Fin (runAct initialScheduler
        [SchedulerAct.audioPre 1, SchedulerAct.audioResume (1/2),
         SchedulerAct.audioPre 1, SchedulerAct.audioResume (1/2),
         SchedulerAct.interrupt,
         SchedulerAct.audioPre 2, SchedulerAct.audioResume 1,
         SchedulerAct.audioPre 4, SchedulerAct.audioResume 2]).sources.length),
      i < j →
      ((runAct initialScheduler
        [SchedulerAct.audioPre 1, SchedulerAct.audioResume (1/2),
         SchedulerAct.audioPre 1, SchedulerAct.audioResume (1/2),
         SchedulerAct.interrupt,
         SchedulerAct.audioPre 2, SchedulerAct.audioResume 1,
         SchedulerAct.audioPre 4, SchedulerAct.audioResume 2]).sources.get i).start
          + ((runAct initialScheduler
        [SchedulerAct.audioPre 1, SchedulerAct.audioResume (1/2),
         SchedulerAct.audioPre 1, SchedulerAct.audioResume (1/2),
         SchedulerAct.interrupt,
         SchedulerAct.audioPre 2, SchedulerAct.audioResume 1,
         SchedulerAct.audioPre 4, SchedulerAct.audioResume 2]).sources.get i).duration
        ≤ ((runAct initialScheduler
        [SchedulerAct.audioPre 1, SchedulerAct.audioResume (1/2),
         SchedulerAct.audioPre 1, SchedulerAct.audioResume (1/2),
         SchedulerAct.interrupt,
         SchedulerAct.audioPre 2, SchedulerAct.audioResume 1,
         SchedulerAct.audioPre 4, SchedulerAct.audioResume 2]).sources.get j).start := by
  have hd : ∀ a ∈ [SchedulerAct.audioPre 1, SchedulerAct.audioResume (1/2),
            SchedulerAct.audioPre 1, SchedulerAct.audioResume (1/2),
            SchedulerAct.interrupt,
            SchedulerAct.audioPre 2, SchedulerAct.audioResume 1,
            SchedulerAct.audioPre 4, SchedulerAct.audioResume 2],
        actDurationNonneg a := by
    intro a ha
    simp only [List.mem_cons, List.not_mem_nil, or_false] at ha
    rcases ha with h | h | h | h | h | h | h | h | h <;>
      subst h <;> simp [actDurationNonneg]
  exact ⟨hd, C2_no_overlapping_schedule _ hd⟩

/-- C3: processing an `interrupted` message stops exactly the currently
scheduled sources, empties `sourcesRef`, and resets `nextStartTimeRef` to
`0`; since every subsequent enqueue computes its start time as
`max(nextStartTime, now)` with `now = ctx.currentTime ≥ 0`, the first
buffer enqueued after the interrupt starts exactly at the current time —
the gapless schedule is re-anchored at "now". -/
theorem C3_interrupt_clears_and_reanchors (s : SchedulerState) (now d : ℚ)
    (hnow : 0 ≤ now) :
    (interruptStep s).2 = s.sources ∧
    (interruptStep s).1.sources = [] ∧
    (interruptStep s).1.nextStartTime = 0 ∧
    (enqueue (interruptStep s).1 now d).2.start = now := by
  refine ⟨rfl, rfl, rfl, ?_⟩
  simp only [enqueue, audioPhaseA, audioPhaseB, interruptStep]
  exact max_eq_right hnow

/-- Witness for C3: interrupting a scheduler holding one source scheduled
at 0 with duration 1 and anchor 3, then enqueueing at current time 2,
stops that source, clears the set, zeroes the anchor, and schedules the
new buffer at 2. -/
theorem C3_interrupt_clears_and_reanchors_witness :
    (0 : ℚ) ≤ 2 ∧
    (interruptStep ⟨3, [⟨0, 1⟩]⟩).2 = [(⟨0, 1⟩ : Source)] ∧
    (interruptStep ⟨3, [⟨0, 1⟩]⟩).1.sources = [] ∧
    (interruptStep ⟨3, [⟨0, 1⟩]⟩).1.nextStartTime = 0 ∧
    (enqueue (interruptStep ⟨3, [⟨0, 1⟩]⟩).1 2 (1/2)).2.start = 2 := by
  have h := C3_interrupt_clears_and_reanchors ⟨3, [⟨0, 1⟩]⟩ 2 (1/2) (by norm_num)
  exact ⟨by norm_num, h.1, h.2.1, h.2.2.1, h.2.2.2⟩

/-- C4: the `onmessage` handler suspends at `await decodeAudioData`
(between lines 141 and 148), so an `interrupted` message can be processed
while a chunk that arrived before it is still being decoded.  When the
decode then resolves, lines 148-155 run against the post-interrupt state:
the pre-interrupt chunk is scheduled anyway, with start time
`nextStartTimeRef.current = 0`, i.e. it starts playing immediately after
the interrupt.  Concretely: a chunk arrives at current time 1 and begins
decoding, an interrupt is processed, the decode resolves with a 20 ms
buffer — afterwards `sourcesRef` again contains that stale buffer, started
at 0 (in the past, hence audible at once), refuting the claim that no
pre-interrupt chunk is ever scheduled or audible after an interrupt. -/
theorem C4_interrupt_race_schedules_stale_chunk :
    (audioPhaseB (interruptStep (audioPhaseA initialScheduler 1)).1 (1/50)).1.sources
      = [({ start := 0, duration := 1/50 } : Source)] ∧
    (audioPhaseB (interruptStep (audioPhaseA initialScheduler 1)).1 (1/50)).2.start = 0 ∧
    (audioPhaseB (interruptStep (audioPhaseA initialScheduler 1)).1 (1/50)).1.sources ≠ [] := by
  refine ⟨rfl, rfl, by simp [audioPhaseB, interruptStep, audioPhaseA, initialScheduler]⟩

/-- C6: a decode failure for one chunk is caught inside the handler (line
158): the chunk is skipped, `sourcesRef` is unchanged by that chunk,
`nextStartTimeRef` is not advanced by any duration (only re-anchored to
`max(nextStartTime, currentTime)`, which happened before the decode), and
any subsequent successfully decoded chunk is scheduled normally from that
state. -/
theorem C6_decode_failure_skips_chunk (s : SchedulerState) (now : ℚ) :
    (onmessage s (.audioChunk now none)).sources = s.sources ∧
    (onmessage s (.audioChunk now none)).nextStartTime = max s.nextStartTime now ∧
    (∀ now' d' : ℚ,
      (enqueue (onmessage s (.audioChunk now none)) now' d').2.start
          = max (max s.nextStartTime now) now' ∧
      (enqueue (onmessage s (.audioChunk now none)) now' d').1.nextStartTime
          = max (max s.nextStartTime now) now' + d' ∧
      (enqueue (onmessage s (.audioChunk now none)) now' d').1.sources
          = s.sources ++ [(enqueue (onmessage s (.audioChunk now none)) now' d').2]) := by
  refine ⟨rfl, rfl, fun now' d' => ⟨rfl, rfl, rfl⟩⟩

theorem processFrames_unmuted (fs : List AudioFrame) :
    ∀ st : LiveComponentState, st.handlerMuted = false →
      processFrames st fs = { st with pending := st.pending ++ fs.map createPcmBlob } := by
  induction fs with
  | nil => intro st _; simp [processFrames]
  | cons f fs ih =>
    intro st h
    show processFrames (onaudioprocess st f) fs = _
    rw [onaudioprocess, if_neg (by simp [h])]
    rw [ih _ (by simp [h])]
    simp

/-- C5: after `toggleMute` has set the React `isMuted` state to `true`
(and left the microphone stream open), a subsequent `onaudioprocess`
callback still produces an outbound packet that is handed to
`sendRealtimeInput`: the guard at line 102 reads the `isMuted` binding
captured by the closure when it was installed at mount (always `false`),
not the updated state, so muting does not suppress frame emission. -/
theorem C5_muted_frame_still_sent :
    (toggleMute sessionAfterOpen).isMuted = true ∧
    (toggleMute sessionAfterOpen).handlerMuted = false ∧
    (toggleMute sessionAfterOpen).micOpen = true ∧
    (onaudioprocess (toggleMute sessionAfterOpen) ⟨0⟩).pending
      = [createPcmBlob ⟨0⟩] ∧
    (drainMicrotasks (onaudioprocess (toggleMute sessionAfterOpen) ⟨0⟩)).sent
      = [createPcmBlob ⟨0⟩] := by
  exact ⟨rfl, rfl, rfl, rfl, rfl⟩

/-- C8: for every sequence of captured frames in one (unmuted-at-mount)
session, the capture callbacks only register the sends on the microtask
queue (no packet reaches `sendRealtimeInput` during the callbacks:
fire-and-forget), and draining the queue hands the packets to
`sendRealtimeInput` in exactly capture order — the k-th captured frame is
the k-th packet sent. -/
theorem C8_sends_in_capture_order (fs : List AudioFrame) :
    (processFrames sessionAfterOpen fs).sent = [] ∧
    (drainMicrotasks (processFrames sessionAfterOpen fs)).sent
      = fs.map createPcmBlob ∧
    ∀ k : ℕ, ((drainMicrotasks (processFrames sessionAfterOpen fs)).sent)[k]?
      = (fs[k]?).map createPcmBlob := by
  have h := processFrames_unmuted fs sessionAfterOpen rfl
  refine ⟨?_, ?_, ?_⟩
  · rw [h]; simp [sessionAfterOpen, installHandler]
  · rw [h]; simp [drainMicrotasks, sessionAfterOpen, installHandler]
  · intro k
    rw [h]
    simp [drainMicrotasks, sessionAfterOpen, installHandler, List.getElem?_map]

/-- C7: `cleanupAudio` releases each of the six owned resources of the
claim (microphone stream, input audio context, output audio context,
processor node, network session, scheduled buffers) exactly once: after
one call every ref is null and the scheduled set is empty; the first call
performs one release per held resource; and a second call changes neither
the refs nor any of the per-resource release counters (it is a no-op on
every owned resource).  The hypothesis is the component's invariant that
sources are only ever added while the output context is held (line 136)
and are cleared whenever it is released, so a state with a null output
context holds no scheduled sources. -/
theorem C7_close_idempotent (st : CleanupState)
    (hreach : st.refs.outputCtx = false → st.refs.sources = []) :
    ((cleanupAudio st).refs.processor = false ∧
     (cleanupAudio st).refs.sourceNode = false ∧
     (cleanupAudio st).refs.stream = false ∧
     (cleanupAudio st).refs.inputCtx = false ∧
     (cleanupAudio st).refs.outputCtx = false ∧
     (cleanupAudio st).refs.sources = [] ∧
     (cleanupAudio st).refs.session = false) ∧
    ((cleanupAudio st).log.processorDisconnects
        = st.log.processorDisconnects + (if st.refs.processor then 1 else 0) ∧
     (cleanupAudio st).log.sourceNodeDisconnects
        = st.log.sourceNodeDisconnects + (if st.refs.sourceNode then 1 else 0) ∧
     (cleanupAudio st).log.streamTrackStops
        = st.log.streamTrackStops + (if st.refs.stream then 1 else 0) ∧
     (cleanupAudio st).log.inputCtxCloses
        = st.log.inputCtxCloses + (if st.refs.inputCtx then 1 else 0) ∧
     (cleanupAudio st).log.outputCtxCloses
        = st.log.outputCtxCloses + (if st.refs.outputCtx then 1 else 0) ∧
     (cleanupAudio st).log.sourceStopAttempts
        = st.log.sourceStopAttempts
          + (if st.refs.outputCtx then st.refs.sources.length else 0) ∧
     (cleanupAudio st).log.sessionCloses
        = st.log.sessionCloses + (if st.refs.session then 1 else 0)) ∧
    ((cleanupAudio (cleanupAudio st)).refs = (cleanupAudio st).refs ∧
     (cleanupAudio (cleanupAudio st)).log.processorDisconnects
        = (cleanupAudio st).log.processorDisconnects ∧
     (cleanupAudio (cleanupAudio st)).log.sourceNodeDisconnects
        = (cleanupAudio st).log.sourceNodeDisconnects ∧
     (cleanupAudio (cleanupAudio st)).log.streamTrackStops
        = (cleanupAudio st).log.streamTrackStops ∧
     (cleanupAudio (cleanupAudio st)).log.inputCtxCloses
        = (cleanupAudio st).log.inputCtxCloses ∧
     (cleanupAudio (cleanupAudio st)).log.outputCtxCloses
        = (cleanupAudio st).log.outputCtxCloses ∧
     (cleanupAudio (cleanupAudio st)).log.sourceStopAttempts
        = (cleanupAudio st).log.sourceStopAttempts ∧
     (cleanupAudio (cleanupAudio st)).log.sessionCloses
        = (cleanupAudio st).log.sessionCloses) := by
  obtain ⟨⟨p, sn, str, ic, oc, srcs, sess, req⟩, lg⟩ := st
  cases oc with
  | false =>
    obtain rfl : srcs = [] := hreach rfl
    cases p <;> cases sn <;> cases str <;> cases ic <;> cases sess <;> cases req <;>
      simp [cleanupAudio, processorBlock, sourceNodeBlock, streamBlock, inputCtxBlock,
        outputCtxBlock, sessionBlock, requestBlock]
  | true =>
    cases p <;> cases sn <;> cases str <;> cases ic <;> cases sess <;> cases req <;>
      simp [cleanupAudio, processorBlock, sourceNodeBlock, streamBlock, inputCtxBlock,
        outputCtxBlock, sessionBlock, requestBlock]

/-- Witness for C7: cleaning up a fully connected session (all refs held,
two scheduled sources, fresh counters) releases each resource once, and a
second cleanup changes nothing on the owned resources. -/
theorem C7_close_idempotent_witness :
    ((⟨⟨true, true, true, true, true, [⟨0, false⟩, ⟨1, true⟩], true, true⟩,
        ⟨0, 0, 0, 0, 0, 0, 0, 0⟩⟩ : CleanupState).refs.outputCtx = false →
      (⟨⟨true, true, true, true, true, [⟨0, false⟩, ⟨1, true⟩], true, true⟩,
        ⟨0, 0, 0, 0, 0, 0, 0, 0⟩⟩ : CleanupState).refs.sources = []) ∧
    (cleanupAudio ⟨⟨true, true, true, true, true, [⟨0, false⟩, ⟨1, true⟩], true, true⟩,
        ⟨0, 0, 0, 0, 0, 0, 0, 0⟩⟩).log.sessionCloses = 0 + 1 ∧
    (cleanupAudio ⟨⟨true, true, true, true, true, [⟨0, false⟩, ⟨1, true⟩], true, true⟩,
        ⟨0, 0, 0, 0, 0, 0, 0, 0⟩⟩).log.sourceStopAttempts = 0 + 2 ∧
    (cleanupAudio (cleanupAudio ⟨⟨true, true, true, true, true,
        [⟨0, false⟩, ⟨1, true⟩], true, true⟩, ⟨0, 0, 0, 0, 0, 0, 0, 0⟩⟩)).log.sessionCloses
      = (cleanupAudio ⟨⟨true, true, true, true, true, [⟨0, false⟩, ⟨1, true⟩], true, true⟩,
        ⟨0, 0, 0, 0, 0, 0, 0, 0⟩⟩).log.sessionCloses := by
  have h := C7_close_idempotent
    ⟨⟨true, true, true, true, true, [⟨0, false⟩, ⟨1, true⟩], true, true⟩,
      ⟨0, 0, 0, 0, 0, 0, 0, 0⟩⟩ (by intro hc; cases hc)
  exact ⟨(by intro hc; cases hc), h.2.1.2.2.2.2.2.2,
    h.2.1.2.2.2.2.2.1, h.2.2.2.2.2.2.2.2.2⟩

theorem stopEachGuarded_eq (nodes : List SourceNode) :
    stopEachGuarded nodes = Except.ok (nodes.map SourceNode.id) := by
  induction nodes with
  | nil => rfl
  | cons n ns ih =>
    have ht : tryStopNode n = Except.ok () := by
      unfold tryStopNode stopNode
      cases n.stopThrows <;> simp
    show (tryStopNode n).bind _ = _
    rw [ht, ih]
    rfl

/-- C10: with every `source.stop()` individually wrapped in
`try { } catch(e) {}`, neither the interrupt path (lines 127-131) nor the
cleanup path (lines 48-55) can be aborted by a throwing stop: whatever
subset of the scheduled nodes would throw on `stop()`, every node's stop
is attempted (in order), the scheduled set ends empty, the anchor is
reset (interrupt path) and the context `close()` is reached (cleanup
path) — the paths never finish with an uncaught exception. -/
theorem C10_guarded_stops_complete (nodes : List SourceNode) :
    stopEachGuarded nodes = Except.ok (nodes.map SourceNode.id) ∧
    interruptPath nodes = Except.ok (nodes.map SourceNode.id, [], 0) ∧
    cleanupStopsPath nodes = Except.ok (nodes.map SourceNode.id, [], true) := by
  have h : stopEachGuarded nodes = Except.ok (nodes.map SourceNode.id) :=
    stopEachGuarded_eq nodes
  refine ⟨h, ?_, ?_⟩
  · show (stopEachGuarded nodes).bind _ = _
    rw [h]
    rfl
  · show (stopEachGuarded nodes).bind _ = _
    rw [h]
    rfl

/-- C9: `analyzeDiaryEntry` never propagates a failure: its result is
always either the successfully parsed analysis or the fixed default; and
whenever any step fails (a provider call throws, the response text is
missing or empty, or the JSON is malformed), the result is exactly the
fixed default analysis, whose `moodScore` is 5. -/
theorem C9_analysis_failure_returns_default (text : String)
    (attachments : List String) (config : Option AIConfig) (o : ProviderOracle)
    (hfail : analysisAttempt text attachments config o = .error ()) :
    analyzeDiaryEntry text attachments config o = defaultAnalysis ∧
    defaultAnalysis.moodScore = 5 ∧
    (∀ (t : String) (a : List String) (c : Option AIConfig) (q : ProviderOracle),
      analyzeDiaryEntry t a c q = defaultAnalysis ∨
      ∃ r, analysisAttempt t a c q = .ok r ∧ analyzeDiaryEntry t a c q = r) := by
  refine ⟨by simp [analyzeDiaryEntry, hfail], rfl, ?_⟩
  intro t a c q
  cases h : analysisAttempt t a c q with
  | ok r => exact Or.inr ⟨r, rfl, by simp [analyzeDiaryEntry, h]⟩
  | error e => exact Or.inl (by simp [analyzeDiaryEntry, h])

/-- Witness for C9: with every provider call failing, analysing a diary
entry with no attachments under the default configuration yields exactly
the fixed default analysis. -/
theorem C9_analysis_failure_returns_default_witness :
    analysisAttempt "今天有点累。" [] none failingOracle = .error () ∧
    analyzeDiaryEntry "今天有点累。" [] none failingOracle = defaultAnalysis := by
  have h : analysisAttempt "今天有点累。" [] none failingOracle = .error () := rfl
  exact ⟨h, (C9_analysis_failure_returns_default "今天有点累。" [] none failingOracle h).1⟩

end MindfulMoments
